import Mathlib

/-!
Verification development for the PatentAgent mermaid diagram export pipeline.

The JavaScript source consists of three variants of a `renderMermaid` script.
The richest variant (with `resolveSvgSize`, `cloneSvgForExport`, `svgToPng`)
and the four-method fallback variant (`method1_CloneSVG` .. `method4_DirectCanvas`,
`tryAllMethods`) are embedded below as pure Lean functions.

JavaScript numbers are modelled as `ℚ` (no floating point subtleties arise in
the arithmetic involved: additions, multiplications by a clamped scale, and
`Math.ceil`).  A JavaScript value that may be `undefined` is modelled as an
`Option`.  JavaScript truthiness on numbers (`0`, `NaN`, `undefined` are falsy)
is modelled by `truthy` below; `NaN` never reaches the truthiness tests because
`getNumber` filters non-finite parses to `undefined`.
-/

/-- A candidate attribute token as seen by `getNumber` in `resolveSvgSize`:
either a string containing a percent sign, a string that `parseFloat` parses
to a finite number, or one that parses to `NaN`/infinity. -/
inductive JsVal where
  | pct
  | num (q : ℚ)
  | nan
deriving DecidableEq

/-- `getNumber` from `resolveSvgSize` (src/unnamed/part_001 lines 24-30):
percentage strings are discarded, and only finite parses are kept. -/
def getNumber : JsVal → Option ℚ
  | JsVal.pct => none
  | JsVal.num q => some q
  | JsVal.nan => none

/-- `getNumber` applied to the result of `getAttribute`, which may be absent
(`undefined`): `parseFloat(undefined)` is `NaN`, hence `undefined` out. -/
def getAttrNum : Option JsVal → Option ℚ
  | none => none
  | some v => getNumber v

/-- JavaScript truthiness of a number-or-undefined value: `undefined` and `0`
are falsy, every other (finite) number is truthy. -/
def truthy : Option ℚ → Bool
  | none => false
  | some q => decide (q ≠ 0)

/-- JavaScript `a || b` on number-or-undefined values. -/
def jsOr (a b : Option ℚ) : Option ℚ := if truthy a then a else b

/-- The four numbers of a parsed viewBox attribute. -/
structure VBdata where
  x : ℚ
  y : ℚ
  w : ℚ
  h : ℚ
deriving DecidableEq

/-- The `viewBox` string held by `resolveSvgSize`: the empty string, the
original valid four-number attribute string, a string synthesized from the
content bounding box, or the final `0 0 w h` fallback.  String truthiness
corresponds to not being `VBox.empty`. -/
inductive VBox where
  | empty
  | attr (v : VBdata)
  | fromBBox (x y w h : ℚ)
  | synth (w h : ℚ)
deriving DecidableEq

/-- The read-only interface of a live SVG element that `resolveSvgSize`
consults: declared attributes, layout rectangle (`getBoundingClientRect`),
client/scroll sizes, and the content bounding box (`getBBox`, which may be
missing on the object or throw, hence the two flags). -/
structure SvgElement where
  widthAttr : Option JsVal
  heightAttr : Option JsVal
  viewBoxAttr : Option (List JsVal)
  rectW : ℚ
  rectH : ℚ
  clientW : ℚ
  clientH : ℚ
  scrollW : ℚ
  scrollH : ℚ
  hasGetBBox : Bool
  bboxOk : Bool
  bboxX : ℚ
  bboxY : ℚ
  bboxW : ℚ
  bboxH : ℚ
deriving DecidableEq

/-- Parsing of the `viewBox` attribute in `resolveSvgSize` (part_001 lines
37-42): split into whitespace tokens, map `getNumber`, and require exactly
four finite numbers; otherwise the viewBox is reset to the empty string.
A missing or empty attribute yields a token list that is not four numbers. -/
def vbParsed (el : SvgElement) : Option VBdata :=
  match el.viewBoxAttr with
  | some [a, b, c, d] =>
    match getNumber a, getNumber b, getNumber c, getNumber d with
    | some x, some y, some w, some h => some ⟨x, y, w, h⟩
    | _, _, _, _ => none
  | _ => none

/-- Step 1 of `resolveSvgSize` for the width (part_001 lines 44-48): a valid
viewBox fills a falsy declared width via `width = width || vbParts[2]`. -/
def resolveW1 (el : SvgElement) : Option ℚ :=
  match vbParsed el with
  | some v => jsOr (getAttrNum el.widthAttr) (some v.w)
  | none => getAttrNum el.widthAttr

/-- Step 1 of `resolveSvgSize` for the height. -/
def resolveH1 (el : SvgElement) : Option ℚ :=
  match vbParsed el with
  | some v => jsOr (getAttrNum el.heightAttr) (some v.h)
  | none => getAttrNum el.heightAttr

/-- Step 2 (part_001 lines 50-52): `if (!width && rect.width) width = rect.width`. -/
def resolveW2 (el : SvgElement) : Option ℚ :=
  if truthy (resolveW1 el) then resolveW1 el
  else if el.rectW ≠ 0 then some el.rectW else resolveW1 el

/-- Step 2 for the height. -/
def resolveH2 (el : SvgElement) : Option ℚ :=
  if truthy (resolveH1 el) then resolveH1 el
  else if el.rectH ≠ 0 then some el.rectH else resolveH1 el

/-- The guard of step 3 (part_001 line 55): `(!width || !height || !viewBox)`.
The `viewBox` string is falsy exactly when no valid attribute was adopted. -/
def needBBox (el : SvgElement) : Bool :=
  !truthy (resolveW2 el) || !truthy (resolveH2 el) || decide (vbParsed el = none)

/-- Whether the `getBBox` branch of step 3 runs to completion: the guard
holds, the element has `getBBox`, and the call does not throw. -/
def useBBox (el : SvgElement) : Bool :=
  needBBox el && el.hasGetBBox && el.bboxOk

/-- Step 3 for the width (part_001 line 58): `width = width || Math.ceil(box.width)`. -/
def resolveW3 (el : SvgElement) : Option ℚ :=
  if useBBox el then jsOr (resolveW2 el) (some ((⌈el.bboxW⌉ : ℤ) : ℚ)) else resolveW2 el

/-- Step 3 for the height. -/
def resolveH3 (el : SvgElement) : Option ℚ :=
  if useBBox el then jsOr (resolveH2 el) (some ((⌈el.bboxH⌉ : ℤ) : ℚ)) else resolveH2 el

/-- The viewBox after step 3: the valid attribute if there was one, else the
bbox-derived string when the bbox branch ran, else still empty. -/
def resolveVB3 (el : SvgElement) : VBox :=
  match vbParsed el with
  | some v => VBox.attr v
  | none =>
    if useBBox el then VBox.fromBBox el.bboxX el.bboxY el.bboxW el.bboxH else VBox.empty

/-- The tail of step 4 (part_001 line 69): `clientWidth || scrollWidth || 1024`. -/
def fallbackW (el : SvgElement) : ℚ :=
  if el.clientW ≠ 0 then el.clientW else if el.scrollW ≠ 0 then el.scrollW else 1024

/-- The tail of step 4 (part_001 line 70): `clientHeight || scrollHeight || 768`. -/
def fallbackH (el : SvgElement) : ℚ :=
  if el.clientH ≠ 0 then el.clientH else if el.scrollH ≠ 0 then el.scrollH else 768

/-- Step 4 for the width: `width = width || clientWidth || scrollWidth || 1024`. -/
def resolveW4 (el : SvgElement) : ℚ :=
  match resolveW3 el with
  | some q => if q ≠ 0 then q else fallbackW el
  | none => fallbackW el

/-- Step 4 for the height. -/
def resolveH4 (el : SvgElement) : ℚ :=
  match resolveH3 el with
  | some q => if q ≠ 0 then q else fallbackH el
  | none => fallbackH el

/-- The result record of `resolveSvgSize`. -/
structure ResolvedSize where
  width : ℚ
  height : ℚ
  viewBox : VBox
deriving DecidableEq

/-- `resolveSvgSize` (src/unnamed/part_001 lines 23-77): the complete
resolution, with the final viewBox synthesis `0 0 width height` when the
viewBox string is still empty. -/
def resolveSvgSize (el : SvgElement) : ResolvedSize :=
  { width := resolveW4 el
    height := resolveH4 el
    viewBox :=
      if resolveVB3 el = VBox.empty then VBox.synth (resolveW4 el) (resolveH4 el)
      else resolveVB3 el }

/-- A convenient all-zero detached element. -/
def blankElement : SvgElement :=
  { widthAttr := none, heightAttr := none, viewBoxAttr := none
    rectW := 0, rectH := 0, clientW := 0, clientH := 0, scrollW := 0, scrollH := 0
    hasGetBBox := false, bboxOk := false, bboxX := 0, bboxY := 0, bboxW := 0, bboxH := 0 }


/-! ## Rasterizer dimensions (`svgToPng`, src/unnamed/part_001 lines 123-189) -/

/-- JavaScript `window.devicePixelRatio || 1`: `undefined` (density
unavailable) and `0` fall back to `1`. -/
def dprOr1 : Option ℚ → ℚ
  | none => 1
  | some d => if d = 0 then 1 else d

/-- The scale factor of `svgToPng` (part_001 line 129):
`Math.min(Math.max(window.devicePixelRatio || 1, 1), 3)`. -/
def svgToPngScale (dpr : Option ℚ) : ℚ := min (max (dprOr1 dpr) 1) 3

/-- The fixed margin of `svgToPng` (part_001 line 128). -/
def svgToPngMargin : ℚ := 16

/-- The canvas pixel dimensions computed by `svgToPng` (part_001 lines
126-133 and 154-155): resolve the element's size, add the margin on both
sides, multiply by the clamped scale, and take `Math.ceil`. -/
def svgToPngCanvasDims (el : SvgElement) (dpr : Option ℚ) : ℤ × ℤ :=
  let size := resolveSvgSize el
  let margin := svgToPngMargin
  let scale := svgToPngScale dpr
  let logicalWidth := size.width + margin * 2
  let logicalHeight := size.height + margin * 2
  (⌈logicalWidth * scale⌉, ⌈logicalHeight * scale⌉)

/-! ## Fallback chain (`tryAllMethods`, src/mermaid_script.js lines 350-388)

A strategy's outcome is modelled as `Except String String`: an error message
or a produced PNG data URL.  `tryMethods i os` runs the strategies `os`
starting at 0-based index `i`, returning the list of invoked indices and the
final outcome.  On a failure of the last strategy the loop throws the
composite error built from the *last* error message (line 384). -/

/-- The exhaustion message template of `tryAllMethods` line 384. -/
def exhaustedMsg (lastErr : String) : String :=
  "所有PNG转换方法都失败了。最后错误: " ++ lastErr

/-- The `for` loop of `tryAllMethods`: try each strategy in order, return at
the first success, and throw the composite error after the last failure.
(The `[]` base case is unreachable for the fixed four-strategy list.) -/
def tryMethods : ℕ → List (Except String String) → List ℕ × Except String String
  | _, [] => ([], Except.error "")
  | i, o :: rest =>
    match o with
    | Except.ok r => ([i], Except.ok r)
    | Except.error e =>
      match rest with
      | [] => ([i], Except.error (exhaustedMsg e))
      | _ :: _ =>
        let p := tryMethods (i + 1) rest
        (i :: p.1, p.2)

/-- `tryAllMethods` applied to the fixed method list
`[method1_CloneSVG, method2_UseOriginalSVG, method3_DataURI, method4_DirectCanvas]`,
abstracted over each method's outcome. -/
def tryAllMethods (o1 o2 o3 o4 : Except String String) :
    List ℕ × Except String String :=
  tryMethods 0 [o1, o2, o3, o4]


/-! ## Status sink panels on chain exhaustion -/

/-- A structured view of what a failure handler writes to the status sink
(`errorDiv.innerHTML`): the state kind, the embedded message text, and
whether the markup wires up a secondary SVG-download action. -/
structure StatusPanel where
  kind : String
  message : String
  hasSvgDownloadAction : Bool
deriving DecidableEq

/-- The failure panel written by `tryAllMethods().catch` in
src/mermaid_script.js lines 391-410: an error panel embedding the caught
error's message, with textual suggestions but no fallback button. -/
def chainFailurePanel (errMsg : String) : StatusPanel :=
  { kind := "error"
    message := "❌ PNG转换失败 错误信息: " ++ errMsg ++ " 建议: 刷新页面重新生成图表 检查图表是否过于复杂 尝试使用不同的浏览器 联系开发者报告此问题"
    hasSvgDownloadAction := false }

/-- The failure panel written by `svgToPng(...).catch` in
src/unnamed/part_001 lines 244-284: an error panel embedding the error's
message together with a wired `下载SVG备用` (download SVG fallback) button. -/
def part001FailurePanel (errMsg : String) : StatusPanel :=
  { kind := "error"
    message := "❌ PNG转换失败 错误信息: " ++ errMsg ++ " 建议: 请尝试刷新页面或简化图形。如果仍然失败，可优先点击“导出SVG”后自行转换。 下载SVG备用"
    hasSvgDownloadAction := true }

/-! ## DOM tree model and `cloneSvgForExport` (src/unnamed/part_001 lines 82-118) -/

/-- An attribute value as stored by `setAttribute`: the source passes strings,
numbers (stringified), or the viewBox string tracked by `VBox`. -/
inductive AttrV where
  | s (v : String)
  | q (v : ℚ)
  | vb (v : VBox)
deriving DecidableEq

/-- An element tree: tag, attributes in document order, children; or a text
node (used for the style sheet contents). -/
inductive XNode where
  | node (tag : String) (attrs : List (String × AttrV)) (children : List XNode)
  | text (s : String)

/-- `setAttribute` on an attribute list: replace an existing attribute of the
same name in place, else append. -/
def setAttrList (attrs : List (String × AttrV)) (k : String) (v : AttrV) :
    List (String × AttrV) :=
  if attrs.any (fun a => a.1 == k) then
    attrs.map (fun a => if a.1 == k then (k, v) else a)
  else attrs ++ [(k, v)]

/-- `setAttribute` on an element (no-op on text nodes). -/
def setAttr : XNode → String → AttrV → XNode
  | XNode.node t attrs cs, k, v => XNode.node t (setAttrList attrs k v) cs
  | XNode.text s, _, _ => XNode.text s

/-- `getAttribute` on an element. -/
def getAttrOf : XNode → String → Option AttrV
  | XNode.node _ attrs _, k => (attrs.find? (fun a => a.1 == k)).map (fun a => a.2)
  | XNode.text _, _ => none

/-- The children of an element. -/
def XNode.childrenOf : XNode → List XNode
  | XNode.node _ _ cs => cs
  | XNode.text _ => []

/-- Whether a node matches the selector `rect[data-export-bg]`. -/
def isExportBgRect : XNode → Bool
  | XNode.node t attrs _ => t == "rect" && attrs.any (fun a => a.1 == "data-export-bg")
  | XNode.text _ => false

mutual

/-- The number of descendants of a node matching `rect[data-export-bg]`
(the node itself excluded, matching `element.querySelector` semantics). -/
def bgCount : XNode → ℕ
  | XNode.node _ _ cs => bgCountList cs
  | XNode.text _ => 0

/-- The number of nodes in a forest (themselves included) matching
`rect[data-export-bg]`. -/
def bgCountList : List XNode → ℕ
  | [] => 0
  | c :: cs => ((if isExportBgRect c then 1 else 0) + bgCount c) + bgCountList cs

end

/-- `cloned.querySelector('rect[data-export-bg]')` is non-null. -/
def hasExportBg (n : XNode) : Bool := decide (bgCount n ≠ 0)

/-- `insertBefore(child, firstChild)`: prepend a child. -/
def insertFirstChild : XNode → XNode → XNode
  | XNode.node t attrs cs, c => XNode.node t attrs (c :: cs)
  | XNode.text s, _ => XNode.text s

/-- The background rect built in part_001 lines 98-104, with its attributes
set in source order. -/
def mkExportBg (w h : ℚ) : XNode :=
  XNode.node "rect"
    [("data-export-bg", AttrV.s "true"), ("x", AttrV.s "0"), ("y", AttrV.s "0"),
     ("width", AttrV.q w), ("height", AttrV.q h), ("fill", AttrV.s "white")] []

/-- The style element built in part_001 lines 109-115: a universal rule
forcing the cross-platform font fallback stack. -/
def fontStyleNode : XNode :=
  XNode.node "style" []
    [XNode.text "* \x7b font-family: \"Inter\", \"Segoe UI\", \"PingFang SC\", \"Microsoft YaHei\", \"Helvetica\", \"Arial\", sans-serif !important; \x7d"]

/-- `cloneSvgForExport` (src/unnamed/part_001 lines 82-118) as a value-level
function: deep-copy the element, set namespaces, width, height and viewBox,
inject the white background rect as first child when no export background is
present, then inject the font style sheet as the (new) first child. -/
def cloneSvgForExport (svgEl : XNode) (size : ResolvedSize) : XNode :=
  let cloned := svgEl
  let cloned := setAttr cloned "xmlns" (AttrV.s "http://www.w3.org/2000/svg")
  let cloned := setAttr cloned "xmlns:xlink" (AttrV.s "http://www.w3.org/1999/xlink")
  let cloned := setAttr cloned "width" (AttrV.q size.width)
  let cloned := setAttr cloned "height" (AttrV.q size.height)
  let cloned :=
    if size.viewBox ≠ VBox.empty then setAttr cloned "viewBox" (AttrV.vb size.viewBox)
    else setAttr cloned "viewBox" (AttrV.vb (VBox.synth size.width size.height))
  let cloned :=
    if hasExportBg cloned then cloned
    else insertFirstChild cloned (mkExportBg size.width size.height)
  insertFirstChild cloned fontStyleNode

/-! ## Heap model for mutation claims

The DOM objects live in a heap addressed by allocation order; `cloneNode(true)`
allocates a fresh deep copy, and every subsequent `setAttribute`/`insertBefore`
of `cloneSvgForExport` targets the fresh reference only. -/

/-- A heap of DOM element trees addressed by allocation index. -/
structure DomState where
  objs : List XNode

/-- The default for out-of-range reads. -/
def emptyNode : XNode := XNode.node "" [] []

/-- Read a heap object. -/
def getObj (s : DomState) (r : ℕ) : XNode := s.objs.getD r emptyNode

/-- Overwrite a heap object in place. -/
def setObj (s : DomState) (r : ℕ) (n : XNode) : DomState := ⟨s.objs.set r n⟩

/-- Allocate a fresh heap object, returning its reference. -/
def allocObj (s : DomState) (n : XNode) : DomState × ℕ := (⟨s.objs ++ [n]⟩, s.objs.length)

/-- `setAttribute` as a heap mutation. -/
def setObjAttr (s : DomState) (r : ℕ) (k : String) (v : AttrV) : DomState :=
  setObj s r (setAttr (getObj s r) k v)

/-- `insertBefore(child, firstChild)` as a heap mutation. -/
def insertFirstObj (s : DomState) (r : ℕ) (c : XNode) : DomState :=
  setObj s r (insertFirstChild (getObj s r) c)

/-- `cloneSvgForExport` as a heap program, statement by statement:
`cloneNode(true)` allocates the deep copy, and each `setAttribute` /
`insertBefore` of part_001 lines 85-115 mutates the fresh reference. -/
def cloneSvgForExportS (s : DomState) (svgRef : ℕ) (size : ResolvedSize) :
    DomState × ℕ :=
  let p := allocObj s (getObj s svgRef)
  let s1 := p.1
  let c := p.2
  let s2 := setObjAttr s1 c "xmlns" (AttrV.s "http://www.w3.org/2000/svg")
  let s3 := setObjAttr s2 c "xmlns:xlink" (AttrV.s "http://www.w3.org/1999/xlink")
  let s4 := setObjAttr s3 c "width" (AttrV.q size.width)
  let s5 := setObjAttr s4 c "height" (AttrV.q size.height)
  let s6 :=
    if size.viewBox ≠ VBox.empty then setObjAttr s5 c "viewBox" (AttrV.vb size.viewBox)
    else setObjAttr s5 c "viewBox" (AttrV.vb (VBox.synth size.width size.height))
  let s7 :=
    if hasExportBg (getObj s6 c) then s6
    else insertFirstObj s6 c (mkExportBg size.width size.height)
  let s8 := insertFirstObj s7 c fontStyleNode
  (s8, c)

/-- `resolveSvgSize` as a heap program: the source contains no write to the
DOM (part_001 lines 23-77 only call getters), so the heap passes through. -/
def resolveSvgSizeS (s : DomState) (el : SvgElement) : DomState × ResolvedSize :=
  (s, resolveSvgSize el)

/-! ## Object URL lifecycle traces (C6)

`svgToPng` (src/unnamed/part_001 lines 123-189), the download click handler
(lines 237-284) and `method1_CloneSVG` (src/mermaid_script.js lines 95-168)
create transient object URLs.  Each execution path is flattened into an event
trace; URL 0 is the serialized-SVG blob URL, URL 1 the PNG blob URL of
part_001, URL 2 the SVG-fallback blob URL.  A revoke event carries the delay
in milliseconds after which `URL.revokeObjectURL` runs (`0` = immediately,
`3000` = via the scheduled `setTimeout`). -/

/-- One observable event touching a transient object URL. -/
inductive UrlEv where
  | create (id : ℕ)
  | consume (id : ℕ)
  | settled (id : ℕ) (ok : Bool)
  | revoke (id : ℕ) (delayMs : ℕ)
  | download (id : ℕ)

/-- The trace of one `svgToPng` call (part_001 lines 123-189), by outcome:
does the image load succeed, is the 2D context available, does
`canvas.toBlob` throw synchronously, and does it deliver a non-null blob.
The `toBlobThrows` path reaches the `catch` of the `onload` handler *after*
line 160 already revoked the URL, so the catch (line 171) revokes again. -/
def svgToPngTrace (loadOk ctxOk toBlobThrows blobOk : Bool) : List UrlEv :=
  [UrlEv.create 0, UrlEv.consume 0, UrlEv.settled 0 loadOk] ++
  (if loadOk then
    (if ctxOk then
      [UrlEv.revoke 0 0] ++
      (if toBlobThrows then [UrlEv.revoke 0 0]
       else if blobOk then [UrlEv.create 1] else [])
     else [UrlEv.revoke 0 0])
   else [UrlEv.revoke 0 0])

/-- The trace of one click on the download button (part_001 lines 237-284):
run `svgToPng`; on success download the PNG URL and schedule its release
after 3000 ms; on failure, when the user clicks the SVG fallback button,
create, download and schedule release of the SVG blob URL (lines 261-278). -/
def exportClickTrace (loadOk ctxOk toBlobThrows blobOk fallbackClicked : Bool) :
    List UrlEv :=
  svgToPngTrace loadOk ctxOk toBlobThrows blobOk ++
  (if loadOk && ctxOk && !toBlobThrows && blobOk then
    [UrlEv.download 1, UrlEv.revoke 1 3000]
   else if fallbackClicked then
    [UrlEv.create 2, UrlEv.download 2, UrlEv.revoke 2 3000]
   else [])

/-- The trace of one `method1_CloneSVG` call (src/mermaid_script.js lines
95-168): the PNG result is a data URL, so only the SVG blob URL (id 0) is
transient; `canvas.toDataURL` throwing after the revoke on line 142 makes the
catch on line 148 revoke a second time. -/
def method1Trace (loadOk drawOk toDataURLThrows : Bool) : List UrlEv :=
  [UrlEv.create 0, UrlEv.consume 0, UrlEv.settled 0 loadOk] ++
  (if loadOk then
    (if drawOk then
      [UrlEv.revoke 0 0] ++ (if toDataURLThrows then [UrlEv.revoke 0 0] else [])
     else [UrlEv.revoke 0 0])
   else [UrlEv.revoke 0 0])

/-- Is this event a creation of URL `i`? -/
def evIsCreate (i : ℕ) : UrlEv → Bool
  | UrlEv.create j => j == i
  | _ => false

/-- Is this event a revocation of URL `i`? -/
def evIsRevoke (i : ℕ) : UrlEv → Bool
  | UrlEv.revoke j _ => j == i
  | _ => false

/-- Is this event a consuming access of URL `i` (image load or download)? -/
def evIsAccess (i : ℕ) : UrlEv → Bool
  | UrlEv.consume j => j == i
  | UrlEv.download j => j == i
  | _ => false

/-- How many times URL `i` is created in the trace. -/
def createCount (t : List UrlEv) (i : ℕ) : ℕ := t.countP (evIsCreate i)

/-- How many times URL `i` is revoked in the trace. -/
def revokeCount (t : List UrlEv) (i : ℕ) : ℕ := t.countP (evIsRevoke i)

/-- Is URL `i` accessed at some point after a revocation of it? -/
def usedAfterRevoke (i : ℕ) : List UrlEv → Bool
  | [] => false
  | e :: rest =>
    if evIsRevoke i e then rest.any (evIsAccess i) || usedAfterRevoke i rest
    else usedAfterRevoke i rest

/-- Every revocation of URL `i` is justified: an immediate revoke happens
only after the consuming load settled, a delayed revoke only after the
download was triggered.  `seenSettled` / `seenDownload` record the past. -/
def revokesJustified (i : ℕ) (seenSettled seenDownload : Bool) : List UrlEv → Bool
  | [] => true
  | UrlEv.settled j _ :: rest =>
    revokesJustified i (seenSettled || (j == i)) seenDownload rest
  | UrlEv.download j :: rest =>
    revokesJustified i seenSettled (seenDownload || (j == i)) rest
  | UrlEv.revoke j d :: rest =>
    if j == i then
      (if d == 0 then seenSettled else seenDownload) &&
        revokesJustified i seenSettled seenDownload rest
    else revokesJustified i seenSettled seenDownload rest
  | _ :: rest => revokesJustified i seenSettled seenDownload rest

/-- All scheduled revocation delays are bounded by 3000 ms. -/
def delaysBounded : List UrlEv → Bool
  | [] => true
  | UrlEv.revoke _ d :: rest => decide (d ≤ 3000) && delaysBounded rest
  | _ :: rest => delaysBounded rest

/-- The ids of all URLs created in the trace. -/
def createdIds : List UrlEv → List ℕ
  | [] => []
  | UrlEv.create j :: rest => j :: createdIds rest
  | _ :: rest => createdIds rest

/-- The claimed lifecycle discipline for URL `i`: released exactly once,
never accessed after release, each release after the load settled or after
the download trigger, all delays bounded. -/
def releasedExactlyOnce (t : List UrlEv) (i : ℕ) : Bool :=
  revokeCount t i == 1 && !usedAfterRevoke i t &&
    revokesJustified i false false t && delaysBounded t

/-- The weakened lifecycle discipline for URL `i`: released at least once and
at most twice, never accessed after release, justified releases, bounded
delays. -/
def releasedSafely (t : List UrlEv) (i : ℕ) : Bool :=
  decide (1 ≤ revokeCount t i) && decide (revokeCount t i ≤ 2) &&
    !usedAfterRevoke i t && revokesJustified i false false t && delaysBounded t

/-- Every URL created in the trace obeys the exactly-once discipline. -/
def lifecycleExactlyOnce (t : List UrlEv) : Bool :=
  (createdIds t).all (releasedExactlyOnce t)

/-- Every URL created in the trace obeys the weakened discipline. -/
def lifecycleSafe (t : List UrlEv) : Bool :=
  (createdIds t).all (releasedSafely t)

/-! ## Entry guard of `renderMermaid` (C10)

Both script variants begin identically (src/mermaid_script.js lines 19-37,
src/unnamed/part_001 lines 204-221): look up the three per-diagram elements
and bail out before any write or any layout-engine call if one is missing. -/

/-- The three per-diagram capability slots, each holding its current markup
when the element exists in the document. -/
structure Page where
  outputDiv : Option String
  downloadBtn : Option String
  errorDiv : Option String
deriving DecidableEq

/-- The observable outcome of entering `renderMermaid`: the page afterwards,
whether the mermaid layout engine got invoked, and whether the entry threw. -/
structure RenderEntry where
  page : Page
  renderInvoked : Bool
  threw : Bool
deriving DecidableEq

/-- The entry of `renderMermaid` up to the `mermaid.render` call: if any of
the three elements is absent, log and return (no write, no render, no throw);
otherwise clear the error sink, write the progress text, and proceed to
invoke the layout engine. -/
def renderMermaidEntry (p : Page) : RenderEntry :=
  match p.outputDiv, p.downloadBtn, p.errorDiv with
  | some _, some b, some _ =>
    { page := { outputDiv := some "正在渲染...", downloadBtn := some b, errorDiv := some "" }
      renderInvoked := true
      threw := false }
  | _, _, _ => { page := p, renderInvoked := false, threw := false }

/-! ## Concrete elements and documents used in the theorems below -/

/-- An element declaring nonzero numeric width/height attributes *and* a
valid viewBox whose width/height components differ from them. -/
def elDeclaredAndViewBox : SvgElement :=
  { blankElement with
    widthAttr := some (JsVal.num 500)
    heightAttr := some (JsVal.num 400)
    viewBoxAttr := some [JsVal.num 0, JsVal.num 0, JsVal.num 100, JsVal.num 50] }

/-- An element with only a valid viewBox, nothing else declared. -/
def elViewBoxOnly : SvgElement :=
  { blankElement with
    viewBoxAttr := some [JsVal.num 0, JsVal.num 0, JsVal.num 100, JsVal.num 50] }

/-- An element declaring a nonzero numeric width, no height, and a valid
viewBox whose components differ from the declared width. -/
def elMixedDeclared : SvgElement :=
  { blankElement with
    widthAttr := some (JsVal.num 500)
    viewBoxAttr := some [JsVal.num 0, JsVal.num 0, JsVal.num 100, JsVal.num 50] }

/-- An element with percentage width/height, no viewBox, but a live layout
rectangle of 300 by 150. -/
def elPctWithLayout : SvgElement :=
  { blankElement with
    widthAttr := some JsVal.pct
    heightAttr := some JsVal.pct
    rectW := 300
    rectH := 150 }

/-- An element with percentage width/height, no viewBox, and no layout
information at all. -/
def elPctDetached : SvgElement :=
  { blankElement with widthAttr := some JsVal.pct, heightAttr := some JsVal.pct }

/-- An element declaring a negative width attribute. -/
def elNegativeWidth : SvgElement :=
  { blankElement with widthAttr := some (JsVal.num (-5)) }

/-- An ordinary content child of a diagram. -/
def childCircle : XNode := XNode.node "circle" [("r", AttrV.s "5")] []

/-- A stray export-background rect already present in a source document,
placed after other content. -/
def strayBg : XNode := XNode.node "rect" [("data-export-bg", AttrV.s "true")] []

/-- A source document that already contains an export-background rect,
after other content. -/
def docWithStrayBg : XNode := XNode.node "svg" [] [childCircle, strayBg]

/-- A source document with no export-background rect. -/
def docFresh : XNode := XNode.node "svg" [] [childCircle]

/-- A resolved size of 100 by 50. -/
def size100x50 : ResolvedSize :=
  { width := 100, height := 50, viewBox := VBox.synth 100 50 }

/-- A one-object heap holding a fresh document. -/
def heapOne : DomState := ⟨[docFresh]⟩

/-! ## Theorems -/

/-- C1: for every SVG element with resolved size `(w, h)`, margin `m = 16`
and scale `s` taken from the display density, clamped to `[1, 3]` and
defaulting to `1` when the density is unavailable, the `svgToPng` output
canvas pixel dimensions are exactly `ceil((w + 2*m) * s)` by
`ceil((h + 2*m) * s)`. -/
theorem rasterizer_canvas_dims_spec (el : SvgElement) (dpr : Option ℚ) :
    svgToPngCanvasDims el dpr =
      (⌈((resolveSvgSize el).width + 2 * svgToPngMargin) * min (max (dprOr1 dpr) 1) 3⌉,
       ⌈((resolveSvgSize el).height + 2 * svgToPngMargin) * min (max (dprOr1 dpr) 1) 3⌉) ∧
    1 ≤ svgToPngScale dpr ∧ svgToPngScale dpr ≤ 3 ∧ dprOr1 none = 1 := by
  refine ⟨?_, le_min (le_max_right _ _) (by norm_num), min_le_right _ _, rfl⟩
  have hw : (resolveSvgSize el).width + svgToPngMargin * 2 =
      (resolveSvgSize el).width + 2 * svgToPngMargin := by ring
  have hh : (resolveSvgSize el).height + svgToPngMargin * 2 =
      (resolveSvgSize el).height + 2 * svgToPngMargin := by ring
  simp only [svgToPngCanvasDims, svgToPngScale, hw, hh]

/-- C4: `tryAllMethods` invokes the four strategies in the fixed 0-based
order `0 → 1 → 2 → 3` stopping at the first success, and in particular when
strategy 0 (cloned node) fails and strategy 1 (original serialized string)
succeeds, exactly strategies 0 and 1 run, in that order, and the result is
strategy 1's output. -/
theorem fallback_chain_order (o1 o2 o3 o4 : Except String String) :
    ((tryAllMethods o1 o2 o3 o4).1 =
      (if o1.isOk then [0]
       else if o2.isOk then [0, 1]
       else if o3.isOk then [0, 1, 2]
       else [0, 1, 2, 3])) ∧
    (∀ e r : String,
      tryAllMethods (Except.error e) (Except.ok r) o3 o4 = ([0, 1], Except.ok r)) := by
  constructor
  · cases o1 <;> cases o2 <;> cases o3 <;> cases o4 <;> rfl
  · intro e r
    rfl

/-- C10: when any of the three per-diagram capability slots is missing from
the document, `renderMermaid` returns immediately: it does not throw, does
not invoke the layout engine, and leaves the page unchanged. -/
theorem render_missing_slots_noop (p : Page)
    (h : p.outputDiv = none ∨ p.downloadBtn = none ∨ p.errorDiv = none) :
    renderMermaidEntry p = { page := p, renderInvoked := false, threw := false } := by
  obtain ⟨o, d, e⟩ := p
  cases o <;> cases d <;> cases e <;> simp_all [renderMermaidEntry]

/-- C10 witness: a page missing the render target slot is left untouched. -/
theorem render_missing_slots_noop_witness :
    renderMermaidEntry { outputDiv := none, downloadBtn := some "btn", errorDiv := some "" } =
      { page := { outputDiv := none, downloadBtn := some "btn", errorDiv := some "" },
        renderInvoked := false, threw := false } :=
  render_missing_slots_noop _ (Or.inl rfl)

/-- C2 counterexample: on a document with a valid viewBox `0 0 100 50` but
nonzero numeric declared attributes `width=500 height=400`, resolution
returns the declared 500 by 400, not the viewBox's 100 by 50 — the viewBox
does not win "regardless of any other declared sizing". -/
theorem viewbox_priority_counterexample :
    vbParsed elDeclaredAndViewBox = some ⟨0, 0, 100, 50⟩ ∧
    (resolveSvgSize elDeclaredAndViewBox).width = 500 ∧
    (resolveSvgSize elDeclaredAndViewBox).height = 400 ∧
    ¬((resolveSvgSize elDeclaredAndViewBox).width = 100 ∧
      (resolveSvgSize elDeclaredAndViewBox).height = 50) := by decide

/-- A falsy declared width is filled from a valid viewBox's nonzero width
component, independently of the height attribute's state. -/
theorem resolveW4_vb_fill (el : SvgElement) (v : VBdata)
    (hvb : vbParsed el = some v)
    (hw : truthy (getAttrNum el.widthAttr) = false) (hvw : v.w ≠ 0) :
    resolveW4 el = v.w := by
  have ht : truthy (some v.w) = true := by simp [truthy, hvw]
  have h1 : resolveW1 el = some v.w := by simp [resolveW1, hvb, jsOr, hw]
  have h2 : resolveW2 el = some v.w := by simp [resolveW2, h1, ht]
  have h3 : resolveW3 el = some v.w := by
    unfold resolveW3
    by_cases hub : useBBox el = true
    · simp [hub, jsOr, h2, ht]
    · simp only [Bool.not_eq_true] at hub
      simp [hub, h2]
  simp [resolveW4, h3, hvw]

/-- A falsy declared height is filled from a valid viewBox's nonzero height
component, independently of the width attribute's state. -/
theorem resolveH4_vb_fill (el : SvgElement) (v : VBdata)
    (hvb : vbParsed el = some v)
    (hh : truthy (getAttrNum el.heightAttr) = false) (hvh : v.h ≠ 0) :
    resolveH4 el = v.h := by
  have ht : truthy (some v.h) = true := by simp [truthy, hvh]
  have h1 : resolveH1 el = some v.h := by simp [resolveH1, hvb, jsOr, hh]
  have h2 : resolveH2 el = some v.h := by simp [resolveH2, h1, ht]
  have h3 : resolveH3 el = some v.h := by
    unfold resolveH3
    by_cases hub : useBBox el = true
    · simp [hub, jsOr, h2, ht]
    · simp only [Bool.not_eq_true] at hub
      simp [hub, h2]
  simp [resolveH4, h3, hvh]

/-- A nonzero numeric declared width survives every later resolution step:
it takes precedence over viewBox, layout and fallback values on every
element. -/
theorem resolveW4_attr_pass (el : SvgElement) (q : ℚ)
    (hq : getAttrNum el.widthAttr = some q) (hqz : q ≠ 0) :
    resolveW4 el = q := by
  have htr : truthy (getAttrNum el.widthAttr) = true := by simp [truthy, hq, hqz]
  have ht : truthy (some q) = true := by simp [truthy, hqz]
  have h1 : resolveW1 el = some q := by
    unfold resolveW1
    cases hv : vbParsed el with
    | none =>
      simp only [hv]
      exact hq
    | some v =>
      simp only [hv]
      simp [jsOr, hq, ht]
  have h2 : resolveW2 el = some q := by simp [resolveW2, h1, ht]
  have h3 : resolveW3 el = some q := by
    unfold resolveW3
    by_cases hub : useBBox el = true
    · simp [hub, jsOr, h2, ht]
    · simp only [Bool.not_eq_true] at hub
      simp [hub, h2]
  simp [resolveW4, h3, hqz]

/-- A nonzero numeric declared height survives every later resolution step:
it takes precedence over viewBox, layout and fallback values on every
element. -/
theorem resolveH4_attr_pass (el : SvgElement) (q : ℚ)
    (hq : getAttrNum el.heightAttr = some q) (hqz : q ≠ 0) :
    resolveH4 el = q := by
  have htr : truthy (getAttrNum el.heightAttr) = true := by simp [truthy, hq, hqz]
  have ht : truthy (some q) = true := by simp [truthy, hqz]
  have h1 : resolveH1 el = some q := by
    unfold resolveH1
    cases hv : vbParsed el with
    | none =>
      simp only [hv]
      exact hq
    | some v =>
      simp only [hv]
      simp [jsOr, hq, ht]
  have h2 : resolveH2 el = some q := by simp [resolveH2, h1, ht]
  have h3 : resolveH3 el = some q := by
    unfold resolveH3
    by_cases hub : useBBox el = true
    · simp [hub, jsOr, h2, ht]
    · simp only [Bool.not_eq_true] at hub
      simp [hub, h2]
  simp [resolveH4, h3, hqz]

/-- C2 amended: on a document with a valid four-number viewBox, resolution
returns the viewBox's width (respectively height) for each dimension
independently whenever that dimension's declared attribute is missing,
percentage-valued, zero or non-numeric and the viewBox component is nonzero,
while a nonzero numeric declared attribute takes precedence over the viewBox
for its dimension. -/
theorem viewbox_fills_missing_dims (el : SvgElement) (v : VBdata)
    (hvb : vbParsed el = some v) :
    (truthy (getAttrNum el.widthAttr) = false → v.w ≠ 0 →
      (resolveSvgSize el).width = v.w) ∧
    (truthy (getAttrNum el.heightAttr) = false → v.h ≠ 0 →
      (resolveSvgSize el).height = v.h) ∧
    (∀ q : ℚ, getAttrNum el.widthAttr = some q → q ≠ 0 →
      (resolveSvgSize el).width = q) ∧
    (∀ q : ℚ, getAttrNum el.heightAttr = some q → q ≠ 0 →
      (resolveSvgSize el).height = q) :=
  ⟨fun hw hvw => resolveW4_vb_fill el v hvb hw hvw,
   fun hh hvh => resolveH4_vb_fill el v hvb hh hvh,
   fun q hq hqz => resolveW4_attr_pass el q hq hqz,
   fun q hq hqz => resolveH4_attr_pass el q hq hqz⟩

/-- C2 witness: a document declaring `width=500` with viewBox `0 0 100 50`
resolves to the declared 500 wide but viewBox-filled 50 high, and a document
with only the viewBox resolves to 100 by 50. -/
theorem viewbox_fills_missing_dims_witness :
    (resolveSvgSize elMixedDeclared).width = 500 ∧
    (resolveSvgSize elMixedDeclared).height = 50 ∧
    (resolveSvgSize elViewBoxOnly).width = 100 ∧
    (resolveSvgSize elViewBoxOnly).height = 50 :=
  ⟨(viewbox_fills_missing_dims elMixedDeclared ⟨0, 0, 100, 50⟩ (by decide)).2.2.1 500
      (by decide) (by decide),
   (viewbox_fills_missing_dims elMixedDeclared ⟨0, 0, 100, 50⟩ (by decide)).2.1
      (by decide) (by decide),
   (viewbox_fills_missing_dims elViewBoxOnly ⟨0, 0, 100, 50⟩ (by decide)).1
      (by decide) (by decide),
   (viewbox_fills_missing_dims elViewBoxOnly ⟨0, 0, 100, 50⟩ (by decide)).2.1
      (by decide) (by decide)⟩

/-- C3 counterexample: on a document with percentage width/height, no
viewBox, and a live layout rectangle of 300 by 150, resolution returns
300 by 150, not the hard-coded default 1024 by 768. -/
theorem percentage_default_counterexample :
    (resolveSvgSize elPctWithLayout).width = 300 ∧
    (resolveSvgSize elPctWithLayout).height = 150 ∧
    ¬((resolveSvgSize elPctWithLayout).width = 1024 ∧
      (resolveSvgSize elPctWithLayout).height = 768) := by decide

/-- C3 amended: on a document with percentage width/height and no valid
viewBox, resolution discards the percentages, and when the layout rectangle,
content bounding box and client/scroll sizes are all zero or unavailable, it
returns the hard-coded default 1024 by 768. -/
theorem percentage_no_layout_defaults (el : SvgElement)
    (hw : el.widthAttr = some JsVal.pct) (hh : el.heightAttr = some JsVal.pct)
    (hvb : vbParsed el = none)
    (hrw : el.rectW = 0) (hrh : el.rectH = 0)
    (hbw : el.bboxW = 0) (hbh : el.bboxH = 0)
    (hcw : el.clientW = 0) (hch : el.clientH = 0)
    (hsw : el.scrollW = 0) (hsh : el.scrollH = 0) :
    (resolveSvgSize el).width = 1024 ∧ (resolveSvgSize el).height = 768 := by
  have h0 : getAttrNum el.widthAttr = none := by simp [hw, getAttrNum, getNumber]
  have h0h : getAttrNum el.heightAttr = none := by simp [hh, getAttrNum, getNumber]
  have h1 : resolveW1 el = none := by simp [resolveW1, hvb, h0]
  have h1h : resolveH1 el = none := by simp [resolveH1, hvb, h0h]
  have h2 : resolveW2 el = none := by simp [resolveW2, h1, truthy, hrw]
  have h2h : resolveH2 el = none := by simp [resolveH2, h1h, truthy, hrh]
  have h3 : resolveW3 el = none ∨ resolveW3 el = some 0 := by
    by_cases hub : useBBox el = true
    · right
      simp [resolveW3, hub, jsOr, h2, truthy, hbw]
    · left
      simp only [Bool.not_eq_true] at hub
      simp [resolveW3, hub, h2]
  have h3h : resolveH3 el = none ∨ resolveH3 el = some 0 := by
    by_cases hub : useBBox el = true
    · right
      simp [resolveH3, hub, jsOr, h2h, truthy, hbh]
    · left
      simp only [Bool.not_eq_true] at hub
      simp [resolveH3, hub, h2h]
  constructor
  · rcases h3 with h | h <;> simp [resolveSvgSize, resolveW4, h, fallbackW, hcw, hsw]
  · rcases h3h with h | h <;> simp [resolveSvgSize, resolveH4, h, fallbackH, hch, hsh]

/-- C3 witness: a detached document with percentage sizing resolves to the
default 1024 by 768. -/
theorem percentage_no_layout_defaults_witness :
    (resolveSvgSize elPctDetached).width = 1024 ∧
    (resolveSvgSize elPctDetached).height = 768 :=
  percentage_no_layout_defaults elPctDetached rfl rfl rfl rfl rfl rfl rfl rfl rfl rfl rfl

/-- The step-4 width fallback is never zero. -/
theorem fallbackW_ne_zero (el : SvgElement) : fallbackW el ≠ 0 := by
  unfold fallbackW
  split_ifs with h1 h2
  · exact h1
  · exact h2
  · norm_num

/-- The step-4 height fallback is never zero. -/
theorem fallbackH_ne_zero (el : SvgElement) : fallbackH el ≠ 0 := by
  unfold fallbackH
  split_ifs with h1 h2
  · exact h1
  · exact h2
  · norm_num

/-- The step-4 width fallback is positive when the client/scroll sizes are
nonnegative. -/
theorem fallbackW_pos (el : SvgElement) (hc : 0 ≤ el.clientW) (hs : 0 ≤ el.scrollW) :
    0 < fallbackW el := by
  unfold fallbackW
  split_ifs with h1 h2
  · exact lt_of_le_of_ne hc (Ne.symm h1)
  · exact lt_of_le_of_ne hs (Ne.symm h2)
  · norm_num

/-- The step-4 height fallback is positive when the client/scroll sizes are
nonnegative. -/
theorem fallbackH_pos (el : SvgElement) (hc : 0 ≤ el.clientH) (hs : 0 ≤ el.scrollH) :
    0 < fallbackH el := by
  unfold fallbackH
  split_ifs with h1 h2
  · exact lt_of_le_of_ne hc (Ne.symm h1)
  · exact lt_of_le_of_ne hs (Ne.symm h2)
  · norm_num

/-- Any width produced by step 1 is nonnegative when the declared attribute
and the viewBox entries are. -/
theorem resolveW1_nonneg (el : SvgElement)
    (haw : ∀ q : ℚ, getAttrNum el.widthAttr = some q → 0 ≤ q)
    (hvw : ∀ v : VBdata, vbParsed el = some v → 0 ≤ v.w) :
    ∀ q : ℚ, resolveW1 el = some q → 0 ≤ q := by
  intro q hq
  unfold resolveW1 at hq
  cases hv : vbParsed el with
  | none =>
    rw [hv] at hq
    exact haw q hq
  | some v =>
    simp only [hv] at hq
    unfold jsOr at hq
    by_cases ht : truthy (getAttrNum el.widthAttr) = true
    · rw [if_pos ht] at hq
      exact haw q hq
    · rw [if_neg ht] at hq
      obtain rfl : v.w = q := Option.some.inj hq
      exact hvw v hv

/-- Any height produced by step 1 is nonnegative when the declared attribute
and the viewBox entries are. -/
theorem resolveH1_nonneg (el : SvgElement)
    (hah : ∀ q : ℚ, getAttrNum el.heightAttr = some q → 0 ≤ q)
    (hvh : ∀ v : VBdata, vbParsed el = some v → 0 ≤ v.h) :
    ∀ q : ℚ, resolveH1 el = some q → 0 ≤ q := by
  intro q hq
  unfold resolveH1 at hq
  cases hv : vbParsed el with
  | none =>
    rw [hv] at hq
    exact hah q hq
  | some v =>
    simp only [hv] at hq
    unfold jsOr at hq
    by_cases ht : truthy (getAttrNum el.heightAttr) = true
    · rw [if_pos ht] at hq
      exact hah q hq
    · rw [if_neg ht] at hq
      obtain rfl : v.h = q := Option.some.inj hq
      exact hvh v hv

/-- Any width produced by step 2 is nonnegative when additionally the layout
rectangle is. -/
theorem resolveW2_nonneg (el : SvgElement)
    (haw : ∀ q : ℚ, getAttrNum el.widthAttr = some q → 0 ≤ q)
    (hvw : ∀ v : VBdata, vbParsed el = some v → 0 ≤ v.w)
    (hr : 0 ≤ el.rectW) :
    ∀ q : ℚ, resolveW2 el = some q → 0 ≤ q := by
  intro q hq
  unfold resolveW2 at hq
  split_ifs at hq with h1 h2
  · exact resolveW1_nonneg el haw hvw q hq
  · obtain rfl : el.rectW = q := Option.some.inj hq
    exact hr
  · exact resolveW1_nonneg el haw hvw q hq

/-- Any height produced by step 2 is nonnegative when additionally the
layout rectangle is. -/
theorem resolveH2_nonneg (el : SvgElement)
    (hah : ∀ q : ℚ, getAttrNum el.heightAttr = some q → 0 ≤ q)
    (hvh : ∀ v : VBdata, vbParsed el = some v → 0 ≤ v.h)
    (hr : 0 ≤ el.rectH) :
    ∀ q : ℚ, resolveH2 el = some q → 0 ≤ q := by
  intro q hq
  unfold resolveH2 at hq
  split_ifs at hq with h1 h2
  · exact resolveH1_nonneg el hah hvh q hq
  · obtain rfl : el.rectH = q := Option.some.inj hq
    exact hr
  · exact resolveH1_nonneg el hah hvh q hq

/-- Any width produced by step 3 is nonnegative when additionally the
content bounding box is. -/
theorem resolveW3_nonneg (el : SvgElement)
    (haw : ∀ q : ℚ, getAttrNum el.widthAttr = some q → 0 ≤ q)
    (hvw : ∀ v : VBdata, vbParsed el = some v → 0 ≤ v.w)
    (hr : 0 ≤ el.rectW) (hb : 0 ≤ el.bboxW) :
    ∀ q : ℚ, resolveW3 el = some q → 0 ≤ q := by
  intro q hq
  unfold resolveW3 at hq
  split_ifs at hq with h1
  · unfold jsOr at hq
    split_ifs at hq with h2
    · exact resolveW2_nonneg el haw hvw hr q hq
    · obtain rfl : ((⌈el.bboxW⌉ : ℤ) : ℚ) = q := Option.some.inj hq
      exact_mod_cast Int.ceil_nonneg hb
  · exact resolveW2_nonneg el haw hvw hr q hq

/-- Any height produced by step 3 is nonnegative when additionally the
content bounding box is. -/
theorem resolveH3_nonneg (el : SvgElement)
    (hah : ∀ q : ℚ, getAttrNum el.heightAttr = some q → 0 ≤ q)
    (hvh : ∀ v : VBdata, vbParsed el = some v → 0 ≤ v.h)
    (hr : 0 ≤ el.rectH) (hb : 0 ≤ el.bboxH) :
    ∀ q : ℚ, resolveH3 el = some q → 0 ≤ q := by
  intro q hq
  unfold resolveH3 at hq
  split_ifs at hq with h1
  · unfold jsOr at hq
    split_ifs at hq with h2
    · exact resolveH2_nonneg el hah hvh hr q hq
    · obtain rfl : ((⌈el.bboxH⌉ : ℤ) : ℚ) = q := Option.some.inj hq
      exact_mod_cast Int.ceil_nonneg hb
  · exact resolveH2_nonneg el hah hvh hr q hq

/-- The final resolved width is positive when every numeric input read from
the element is nonnegative. -/
theorem resolveW4_pos (el : SvgElement)
    (haw : ∀ q : ℚ, getAttrNum el.widthAttr = some q → 0 ≤ q)
    (hvw : ∀ v : VBdata, vbParsed el = some v → 0 ≤ v.w)
    (hr : 0 ≤ el.rectW) (hb : 0 ≤ el.bboxW)
    (hc : 0 ≤ el.clientW) (hs : 0 ≤ el.scrollW) :
    0 < resolveW4 el := by
  unfold resolveW4
  cases hv : resolveW3 el with
  | none => exact fallbackW_pos el hc hs
  | some q =>
    by_cases hz : q = 0
    · simp only [hz, ne_eq, not_true_eq_false, if_false]
      exact fallbackW_pos el hc hs
    · simp only [ne_eq, hz, not_false_eq_true, if_true]
      exact lt_of_le_of_ne (resolveW3_nonneg el haw hvw hr hb q hv) (Ne.symm hz)

/-- The final resolved height is positive when every numeric input read from
the element is nonnegative. -/
theorem resolveH4_pos (el : SvgElement)
    (hah : ∀ q : ℚ, getAttrNum el.heightAttr = some q → 0 ≤ q)
    (hvh : ∀ v : VBdata, vbParsed el = some v → 0 ≤ v.h)
    (hr : 0 ≤ el.rectH) (hb : 0 ≤ el.bboxH)
    (hc : 0 ≤ el.clientH) (hs : 0 ≤ el.scrollH) :
    0 < resolveH4 el := by
  unfold resolveH4
  cases hv : resolveH3 el with
  | none => exact fallbackH_pos el hc hs
  | some q =>
    by_cases hz : q = 0
    · simp only [hz, ne_eq, not_true_eq_false, if_false]
      exact fallbackH_pos el hc hs
    · simp only [ne_eq, hz, not_false_eq_true, if_true]
      exact lt_of_le_of_ne (resolveH3_nonneg el hah hvh hr hb q hv) (Ne.symm hz)

/-- C9 counterexample: a document declaring `width="-5"` resolves to width
`-5`, which is not positive — the resolver passes negative declared values
through unchanged. -/
theorem resolved_size_positive_counterexample :
    (resolveSvgSize elNegativeWidth).width = -5 ∧
    ¬(0 < (resolveSvgSize elNegativeWidth).width) := by decide

/-- The final resolved width is never zero: a zero value is falsy at every
step, and the tail fallback is nonzero. -/
theorem resolveW4_ne_zero (el : SvgElement) : resolveW4 el ≠ 0 := by
  unfold resolveW4
  cases hv : resolveW3 el with
  | none => exact fallbackW_ne_zero el
  | some q =>
    show (if q ≠ 0 then q else fallbackW el) ≠ 0
    by_cases hz : q = 0
    · rw [if_neg (by simp [hz])]
      exact fallbackW_ne_zero el
    · rw [if_pos hz]
      exact hz

/-- The final resolved height is never zero. -/
theorem resolveH4_ne_zero (el : SvgElement) : resolveH4 el ≠ 0 := by
  unfold resolveH4
  cases hv : resolveH3 el with
  | none => exact fallbackH_ne_zero el
  | some q =>
    show (if q ≠ 0 then q else fallbackH el) ≠ 0
    by_cases hz : q = 0
    · rw [if_neg (by simp [hz])]
      exact fallbackH_ne_zero el
    · rw [if_pos hz]
      exact hz

/-- A width still falsy after the attribute, viewBox, layout and bounding
box steps falls back through the client and scroll widths to 1024. -/
theorem resolveW4_default (el : SvgElement) (h3 : truthy (resolveW3 el) = false)
    (hc : el.clientW = 0) (hs : el.scrollW = 0) : resolveW4 el = 1024 := by
  have hf : fallbackW el = 1024 := by simp [fallbackW, hc, hs]
  unfold resolveW4
  cases hv : resolveW3 el with
  | none => exact hf
  | some q =>
    rw [hv] at h3
    have hq : q = 0 := by simpa [truthy] using h3
    simp [hq, hf]

/-- A height still falsy after the attribute, viewBox, layout and bounding
box steps falls back through the client and scroll heights to 768. -/
theorem resolveH4_default (el : SvgElement) (h3 : truthy (resolveH3 el) = false)
    (hc : el.clientH = 0) (hs : el.scrollH = 0) : resolveH4 el = 768 := by
  have hf : fallbackH el = 768 := by simp [fallbackH, hc, hs]
  unfold resolveH4
  cases hv : resolveH3 el with
  | none => exact hf
  | some q =>
    rw [hv] at h3
    have hq : q = 0 := by simpa [truthy] using h3
    simp [hq, hf]

/-- C9 amended: on every input SVG element the resolved width and height are
nonzero finite numbers — never a percentage value, never NaN; a nonzero
numeric declared width/height (including a negative one) is passed through
unchanged as that dimension; a dimension still unset after the attribute,
viewBox, layout-rectangle and bounding-box steps falls back through the
client/scroll sizes to the hard-coded defaults 1024 and 768; and both
dimensions are positive whenever every number read from the element is
nonnegative. -/
theorem resolved_size_nonzero_positive (el : SvgElement) :
    ((resolveSvgSize el).width ≠ 0 ∧ (resolveSvgSize el).height ≠ 0) ∧
    (∀ q : ℚ, getAttrNum el.widthAttr = some q → q ≠ 0 →
      (resolveSvgSize el).width = q) ∧
    (∀ q : ℚ, getAttrNum el.heightAttr = some q → q ≠ 0 →
      (resolveSvgSize el).height = q) ∧
    (truthy (resolveW3 el) = false → el.clientW = 0 → el.scrollW = 0 →
      (resolveSvgSize el).width = 1024) ∧
    (truthy (resolveH3 el) = false → el.clientH = 0 → el.scrollH = 0 →
      (resolveSvgSize el).height = 768) ∧
    ((∀ q : ℚ, getAttrNum el.widthAttr = some q → 0 ≤ q) →
      (∀ q : ℚ, getAttrNum el.heightAttr = some q → 0 ≤ q) →
      (∀ v : VBdata, vbParsed el = some v → 0 ≤ v.w ∧ 0 ≤ v.h) →
      0 ≤ el.rectW → 0 ≤ el.rectH → 0 ≤ el.bboxW → 0 ≤ el.bboxH →
      0 ≤ el.clientW → 0 ≤ el.clientH → 0 ≤ el.scrollW → 0 ≤ el.scrollH →
      0 < (resolveSvgSize el).width ∧ 0 < (resolveSvgSize el).height) :=
  ⟨⟨resolveW4_ne_zero el, resolveH4_ne_zero el⟩,
   fun q hq hqz => resolveW4_attr_pass el q hq hqz,
   fun q hq hqz => resolveH4_attr_pass el q hq hqz,
   fun h3 hc hs => resolveW4_default el h3 hc hs,
   fun h3 hc hs => resolveH4_default el h3 hc hs,
   fun haw hah hv hrw hrh hbw hbh hcw hch hsw hsh =>
     ⟨resolveW4_pos el haw (fun v h => (hv v h).1) hrw hbw hcw hsw,
      resolveH4_pos el hah (fun v h => (hv v h).2) hrh hbh hch hsh⟩⟩

/-- C9 witness: the negative declared width `-5` passes through unchanged, a
detached percentage-sized element falls back to 1024 by 768, and a blank
element resolves to a positive nonzero size. -/
theorem resolved_size_nonzero_positive_witness :
    (resolveSvgSize elNegativeWidth).width = -5 ∧
    (resolveSvgSize elPctDetached).width = 1024 ∧
    (resolveSvgSize elPctDetached).height = 768 ∧
    (resolveSvgSize elNegativeWidth).width ≠ 0 ∧
    0 < (resolveSvgSize blankElement).width ∧
    0 < (resolveSvgSize blankElement).height :=
  ⟨(resolved_size_nonzero_positive elNegativeWidth).2.1 (-5) (by decide) (by decide),
   (resolved_size_nonzero_positive elPctDetached).2.2.2.1 (by decide) rfl rfl,
   (resolved_size_nonzero_positive elPctDetached).2.2.2.2.1 (by decide) rfl rfl,
   (resolved_size_nonzero_positive elNegativeWidth).1.1,
   ((resolved_size_nonzero_positive blankElement).2.2.2.2.2
      (fun q h => by simp [blankElement, getAttrNum] at h)
      (fun q h => by simp [blankElement, getAttrNum] at h)
      (fun v h => by simp [blankElement, vbParsed] at h)
      le_rfl le_rfl le_rfl le_rfl le_rfl le_rfl le_rfl le_rfl).1,
   ((resolved_size_nonzero_positive blankElement).2.2.2.2.2
      (fun q h => by simp [blankElement, getAttrNum] at h)
      (fun q h => by simp [blankElement, getAttrNum] at h)
      (fun v h => by simp [blankElement, vbParsed] at h)
      le_rfl le_rfl le_rfl le_rfl le_rfl le_rfl le_rfl le_rfl).2⟩

/-- The descendant background count of a node is the count over its
children. -/
theorem bgCount_node_eq (n : XNode) : bgCount n = bgCountList n.childrenOf := by
  cases n
  · rfl
  · rfl

/-- C5 counterexample: cloning a source that already contains an
export-background rect placed after other content injects nothing, so the
output's only background rect sits after original content; and on a fresh
source the injected background is sized to the resolved 100 by 50 document
area, not to the 132 by 82 output canvas that includes the margin. -/
theorem export_bg_counterexample :
    ((cloneSvgForExport docWithStrayBg size100x50).childrenOf =
        [fontStyleNode, childCircle, strayBg] ∧
      bgCount (cloneSvgForExport docWithStrayBg size100x50) = 1 ∧
      isExportBgRect childCircle = false ∧
      isExportBgRect strayBg = true) ∧
    (getAttrOf (mkExportBg size100x50.width size100x50.height) "width" =
        some (AttrV.q 100) ∧
      getAttrOf (mkExportBg size100x50.width size100x50.height) "height" =
        some (AttrV.q 50) ∧
      size100x50.width + 2 * svgToPngMargin = 132 ∧
      size100x50.height + 2 * svgToPngMargin = 82 ∧
      (100 : ℚ) ≠ 132 ∧ (50 : ℚ) ≠ 82) := by
  refine ⟨⟨rfl, rfl, rfl, rfl⟩,
    ⟨rfl, rfl, by norm_num [size100x50, svgToPngMargin],
      by norm_num [size100x50, svgToPngMargin], by norm_num, by norm_num⟩⟩

/-- C5 amended: cloning a source element that contains no export-background
shape yields a document whose children are exactly the injected style node,
then the injected background rect, then all original content unchanged; the
output contains exactly one export-background shape, positioned at `(0,0)`
and sized to the resolved width and height (the margin strip of the output
canvas is whitened by the rasterizer's background fill instead). -/
theorem export_bg_injection (tag : String) (attrs : List (String × AttrV))
    (cs : List XNode) (size : ResolvedSize)
    (h : bgCountList cs = 0) :
    (cloneSvgForExport (XNode.node tag attrs cs) size).childrenOf =
      fontStyleNode :: mkExportBg size.width size.height :: cs ∧
    bgCount (cloneSvgForExport (XNode.node tag attrs cs) size) = 1 ∧
    getAttrOf (mkExportBg size.width size.height) "x" = some (AttrV.s "0") ∧
    getAttrOf (mkExportBg size.width size.height) "y" = some (AttrV.s "0") ∧
    getAttrOf (mkExportBg size.width size.height) "width" = some (AttrV.q size.width) ∧
    getAttrOf (mkExportBg size.width size.height) "height" = some (AttrV.q size.height) ∧
    getAttrOf (mkExportBg size.width size.height) "fill" = some (AttrV.s "white") := by
  have hbg : ∀ al : List (String × AttrV), hasExportBg (XNode.node tag al cs) = false := by
    intro al
    simp [hasExportBg, bgCount, h]
  have hchil : (cloneSvgForExport (XNode.node tag attrs cs) size).childrenOf =
      fontStyleNode :: mkExportBg size.width size.height :: cs := by
    by_cases hv : size.viewBox = VBox.empty
    · simp [cloneSvgForExport, setAttr, hbg, insertFirstChild, XNode.childrenOf, hv]
    · simp [cloneSvgForExport, setAttr, hbg, insertFirstChild, XNode.childrenOf, hv]
  refine ⟨hchil, ?_, rfl, rfl, rfl, rfl, rfl⟩
  rw [bgCount_node_eq, hchil]
  simp [bgCountList, bgCount, isExportBgRect, fontStyleNode, mkExportBg, h]

/-- C5 witness: cloning a fresh one-child document injects exactly one
correctly sized background before the original content. -/
theorem export_bg_injection_witness :
    (cloneSvgForExport (XNode.node "svg" [] [childCircle]) size100x50).childrenOf =
      fontStyleNode :: mkExportBg size100x50.width size100x50.height :: [childCircle] ∧
    bgCount (cloneSvgForExport (XNode.node "svg" [] [childCircle]) size100x50) = 1 ∧
    getAttrOf (mkExportBg size100x50.width size100x50.height) "x" = some (AttrV.s "0") ∧
    getAttrOf (mkExportBg size100x50.width size100x50.height) "y" = some (AttrV.s "0") ∧
    getAttrOf (mkExportBg size100x50.width size100x50.height) "width" =
      some (AttrV.q size100x50.width) ∧
    getAttrOf (mkExportBg size100x50.width size100x50.height) "height" =
      some (AttrV.q size100x50.height) ∧
    getAttrOf (mkExportBg size100x50.width size100x50.height) "fill" =
      some (AttrV.s "white") :=
  export_bg_injection "svg" [] [childCircle] size100x50 (by decide)

/-- C7 counterexample: with all four strategies failing, the chain's error
is built from the last strategy's message alone — two runs whose first three
errors differ but whose last errors agree produce the *same* error value, so
the error cannot carry the accumulated per-strategy attempt list; and the
four-strategy variant's failure panel exposes no SVG download action. -/
theorem exhausted_error_counterexample :
    (tryAllMethods (Except.error "errA") (Except.error "errB") (Except.error "errC")
        (Except.error "errD")).2 =
      (tryAllMethods (Except.error "errX") (Except.error "errY") (Except.error "errZ")
        (Except.error "errD")).2 ∧
    (tryAllMethods (Except.error "errA") (Except.error "errB") (Except.error "errC")
        (Except.error "errD")).2 = Except.error (exhaustedMsg "errD") ∧
    "errA" ≠ "errD" ∧
    (chainFailurePanel (exhaustedMsg "errD")).hasSvgDownloadAction = false := by
  refine ⟨rfl, rfl, by decide, rfl⟩

/-- C7 amended: the chain fails exactly when every strategy fails, and it
then fails with the exhaustion error built from the last strategy's error
text (earlier attempts are only logged, not carried); the single-strategy
variant's failure handler leaves the sink in an error state embedding the
error text and exposing the secondary SVG download action, while the
four-strategy variant's failure handler embeds the error text with textual
suggestions only. -/
theorem exhausted_error_reporting :
    (∀ o1 o2 o3 o4 : Except String String,
      ((tryAllMethods o1 o2 o3 o4).2.isOk = false) ↔
        (o1.isOk = false ∧ o2.isOk = false ∧ o3.isOk = false ∧ o4.isOk = false)) ∧
    (∀ e1 e2 e3 e4 : String,
      (tryAllMethods (Except.error e1) (Except.error e2) (Except.error e3)
          (Except.error e4)).2 = Except.error (exhaustedMsg e4)) ∧
    (∀ m : String, (part001FailurePanel m).kind = "error" ∧
      (part001FailurePanel m).hasSvgDownloadAction = true ∧
      ∃ p q : String, (part001FailurePanel m).message = p ++ m ++ q) ∧
    (∀ m : String, (chainFailurePanel m).kind = "error" ∧
      (chainFailurePanel m).hasSvgDownloadAction = false ∧
      ∃ p q : String, (chainFailurePanel m).message = p ++ m ++ q) := by
  refine ⟨?_, ?_, ?_, ?_⟩
  · intro o1 o2 o3 o4
    cases o1 <;> cases o2 <;> cases o3 <;> cases o4 <;>
      simp [tryAllMethods, tryMethods, Except.isOk, Except.toBool]
  · intro e1 e2 e3 e4
    rfl
  · intro m
    exact ⟨rfl, rfl, "❌ PNG转换失败 错误信息: ",
      " 建议: 请尝试刷新页面或简化图形。如果仍然失败，可优先点击“导出SVG”后自行转换。 下载SVG备用", rfl⟩
  · intro m
    exact ⟨rfl, rfl, "❌ PNG转换失败 错误信息: ",
      " 建议: 刷新页面重新生成图表 检查图表是否过于复杂 尝试使用不同的浏览器 联系开发者报告此问题", rfl⟩

/-- C6 counterexample: on the path where the image loads, the context is
available, and `canvas.toBlob` throws synchronously (a tainted canvas), the
SVG blob URL is revoked twice — once on line 160 and again in the catch on
line 171 — so it is not released exactly once. -/
theorem objecturl_release_counterexample :
    revokeCount (svgToPngTrace true true true true) 0 = 2 ∧
    lifecycleExactlyOnce (svgToPngTrace true true true true) = false := by decide

/-- C6 amended: every transient object URL created during an export attempt
is released after the consuming load settles (or after the bounded 3000 ms
scheduled delay following the download trigger), is never accessed after
release, and is released exactly once on every path except the one where the
synchronous canvas-encoding step throws after the release, where the
already-released locator is redundantly released a second time. -/
theorem objecturl_release_discipline :
    (∀ loadOk ctxOk blobOk fallbackClicked : Bool,
      lifecycleExactlyOnce (exportClickTrace loadOk ctxOk false blobOk fallbackClicked) = true) ∧
    (∀ loadOk ctxOk blobOk fallbackClicked : Bool,
      lifecycleSafe (exportClickTrace loadOk ctxOk true blobOk fallbackClicked) = true) ∧
    (∀ loadOk drawOk : Bool, lifecycleExactlyOnce (method1Trace loadOk drawOk false) = true) ∧
    (∀ loadOk drawOk : Bool, lifecycleSafe (method1Trace loadOk drawOk true) = true) := by
  refine ⟨?_, ?_, ?_, ?_⟩ <;> decide

/-- Setting the element at the appended position rewrites just that
element. -/
theorem list_set_append_length {α : Type _} (l : List α) (x y : α) :
    (l ++ [x]).set l.length y = l ++ [y] := by
  induction l with
  | nil => rfl
  | cons a t ih => simp [ih]

/-- Reading the appended position returns the appended element. -/
theorem list_getD_append_length {α : Type _} (l : List α) (x d : α) :
    (l ++ [x]).getD l.length d = x := by
  induction l with
  | nil => rfl
  | cons a t ih => simp [ih]

/-- The heap run of `cloneSvgForExport` allocates exactly one fresh object —
the export clone — and every mutation of the run targets it: the final heap
is the initial heap with the clone appended. -/
theorem cloneSvgForExportS_spec (s : DomState) (r : ℕ) (size : ResolvedSize) :
    cloneSvgForExportS s r size =
      (DomState.mk (s.objs ++ [cloneSvgForExport (getObj s r) size]), s.objs.length) := by
  by_cases hv : size.viewBox = VBox.empty <;>
    simp only [cloneSvgForExportS, cloneSvgForExport, allocObj, setObjAttr, insertFirstObj,
      setObj, getObj, hv, ne_eq, not_true_eq_false, not_false_eq_true, ite_true, ite_false,
      list_set_append_length, list_getD_append_length] <;>
    split_ifs <;>
    simp only [list_set_append_length, list_getD_append_length]

/-- C8 counterpart lemma: entries below the fresh index are untouched. -/
theorem getD_append_of_lt {α : Type _} (l l' : List α) (i : ℕ) (d : α)
    (h : i < l.length) : (l ++ l').getD i d = l.getD i d := by
  induction l generalizing i with
  | nil => simp at h
  | cons a t ih =>
    cases i with
    | zero => rfl
    | succ n => exact ih n (by simpa using h)

/-- C8: neither size resolution nor export cloning mutates the source
document: `resolveSvgSize` only reads the element and returns values, and
the heap run of `cloneSvgForExport` leaves every pre-existing heap object —
in particular the on-screen document — exactly as it was, returning a fresh
reference. -/
theorem clone_no_source_mutation (s : DomState) (r : ℕ) (size : ResolvedSize)
    (el : SvgElement) (i : ℕ) (h : i < s.objs.length) :
    getObj (cloneSvgForExportS s r size).1 i = getObj s i ∧
    (resolveSvgSizeS s el).1 = s ∧
    (cloneSvgForExportS s r size).2 = s.objs.length := by
  refine ⟨?_, rfl, ?_⟩
  · rw [cloneSvgForExportS_spec]
    unfold getObj
    exact getD_append_of_lt s.objs _ i emptyNode h
  · rw [cloneSvgForExportS_spec]

/-- C8 witness: cloning the document of a one-object heap leaves the stored
source document unchanged. -/
theorem clone_no_source_mutation_witness :
    getObj (cloneSvgForExportS heapOne 0 size100x50).1 0 = getObj heapOne 0 ∧
    (resolveSvgSizeS heapOne blankElement).1 = heapOne ∧
    (cloneSvgForExportS heapOne 0 size100x50).2 = heapOne.objs.length :=
  clone_no_source_mutation heapOne 0 size100x50 blankElement 0 (by decide)
